import Mathlib

set_option maxHeartbeats 1000000

/-
A shallow embedding of the flake8-annotations core
(src/flake8_annotations/checker.py and src/flake8_annotations/models.py),
together with theorems settling the specification claims about it.

Naming note: the Python attribute names `has_type_annotation` and
`has_3107_annotation` are rendered here as `has_type_annot` and
`has_3107_annot`; everything else keeps the source's names.
-/

namespace Flake8Annot

/-- Modelled from the spec: `enums.py` is not under `src/`. The kinds of
annotation slots (spec section 3), with the names used throughout
`models.py` and `checker.py`. -/
inductive AnnotationType
  | POSONLYARG
  | ARG
  | VARARG
  | KWONLYARG
  | KWARG
  | RETURN
deriving DecidableEq, Fintype

/-- Modelled from the spec: `enums.py` is not under `src/`. The decorator-derived
method kind; `None` (absent) is represented by `Option.none` at use sites. -/
inductive ClassDecoratorType
  | CLASSMETHOD
  | STATICMETHOD
deriving DecidableEq, Fintype

/-- Modelled from the spec: `enums.py` is not under `src/`. The name-derived
function kind. -/
inductive FunctionType
  | PUBLIC
  | PROTECTED
  | PRIVATE
  | SPECIAL
deriving DecidableEq, Fintype

/-- Modelled from the spec: `error_codes.py` is not under `src/`. The diagnostic
codes, named exactly as `checker.py` references them. The spec labels map as
A1-A3 = ANN001-ANN003, C2 = ANN101, C1 = ANN102, R4-R1 = ANN201-ANN204,
S1 = ANN205, S2 = ANN206, M1 = ANN301. -/
inductive Error
  | ANN001
  | ANN002
  | ANN003
  | ANN101
  | ANN102
  | ANN201
  | ANN202
  | ANN203
  | ANN204
  | ANN205
  | ANN206
  | ANN301
deriving DecidableEq, Fintype

/-- The shapes of decorator expressions distinguished by `models.py`:
an `ast.Name` (bare name), an `ast.Attribute` (of which only the final
attribute is ever read), an `ast.Call` around another decorator expression,
and a fallback for every other node shape. -/
inductive Decorator
  | name (id : String)
  | attr (a : String)
  | call (func : Decorator)
  | other
deriving DecidableEq

/-- One annotation slot, mirroring `models.Argument` field for field
(`has_type_annot` and `has_3107_annot` stand for the Python attributes
`has_type_annotation` and `has_3107_annotation`). -/
structure Argument where
  argname : String
  lineno : Nat
  col_offset : Nat
  annotation_type : AnnotationType
  has_type_annot : Bool
  has_3107_annot : Bool
  has_type_comment : Bool
deriving DecidableEq

/-- The fields of an `ast.arg` node read by `Argument.from_arg_node`:
`annot` is whether `node.annotation` is present, `type_comment` whether
`node.type_comment` is present. -/
structure ArgNode where
  arg : String
  lineno : Nat
  col_offset : Nat
  annot : Bool
  type_comment : Bool
deriving DecidableEq

/-- One slot of a parsed function-level type comment signature
(`hint_tree.argtypes` in `models.Function.try_type_comment`): either a real
hint expression or the literal `...` placeholder (`ast.Ellipsis`). -/
inductive HintSlot
  | hint
  | ellipsisSlot
deriving DecidableEq

/-- One function definition, mirroring `models.Function` field for field. -/
structure Function where
  name : String
  lineno : Nat
  col_offset : Nat
  function_type : FunctionType
  is_class_method : Bool
  class_decorator_type : Option ClassDecoratorType
  is_return_annotated : Bool
  has_type_comment : Bool
  has_only_none_returns : Bool
  is_nested : Bool
  decorator_list : List Decorator
  args : List Argument
deriving DecidableEq

/-- `models.Function.is_fully_annotated`: all slots annotated. -/
def Function.is_fully_annotated (f : Function) : Bool :=
  f.args.all (fun arg => arg.has_type_annot)

/-- `models.Function.is_dynamically_typed`: no slot annotated at all. -/
def Function.is_dynamically_typed (f : Function) : Bool :=
  !(f.args.any (fun arg => arg.has_type_annot))

/-- `models.Function.get_missed_annotations`: the slots lacking annotations,
in declaration order. -/
def Function.get_missed_annotations (f : Function) : List Argument :=
  f.args.filter (fun arg => !arg.has_type_annot)

/-- `models.Function.get_annotated_arguments`: the annotated slots, in
declaration order. -/
def Function.get_annotated_arguments (f : Function) : List Argument :=
  f.args.filter (fun arg => arg.has_type_annot)

/-- `models.Function._decorator_checker`: match a single decorator expression
against a set of names (bare name by `id`, attribute by its final `attr`,
call by recursing into the called expression, anything else fails). -/
def _decorator_checker : Decorator → List String → Bool
  | Decorator.name id, check_decorators => check_decorators.contains id
  | Decorator.attr a, check_decorators => check_decorators.contains a
  | Decorator.call func, check_decorators => _decorator_checker func check_decorators
  | Decorator.other, _ => false

/-- `models.Function.has_decorator`. The Python body is
`for decorator in self.decorator_list: return self._decorator_checker(...)`
followed by `else: return False`, so it returns on the first iteration:
only the first decorator in the list is ever inspected. -/
def Function.has_decorator (f : Function) (check_decorators : List String) : Bool :=
  match f.decorator_list with
  | [] => false
  | decorator :: _ => _decorator_checker decorator check_decorators

/-- `models.Function.get_function_type`: derive the function kind from its
name by prefix/suffix inspection, SPECIAL before PRIVATE before PROTECTED. -/
def Function.get_function_type (function_name : String) : FunctionType :=
  if function_name.startsWith "__" && function_name.endsWith "__" then FunctionType.SPECIAL
  else if function_name.startsWith "__" then FunctionType.PRIVATE
  else if function_name.startsWith "_" then FunctionType.PROTECTED
  else FunctionType.PUBLIC

/-- `models.Function.get_class_decorator_type`: collect the ids of the
`ast.Name` decorators only, then test `classmethod` before `staticmethod`. -/
def Function.get_class_decorator_type (decorator_list : List Decorator) :
    Option ClassDecoratorType :=
  let decorators := decorator_list.filterMap (fun decorator =>
    match decorator with
    | Decorator.name id => some id
    | _ => none)
  if decorators.contains "classmethod" then some ClassDecoratorType.CLASSMETHOD
  else if decorators.contains "staticmethod" then some ClassDecoratorType.STATICMETHOD
  else none

/-- `models.Argument.from_arg_node`: build an Argument from an `ast.arg`
node; an inline annotation sets the 3107 flag, a per-argument type comment
sets the comment flag, and either sets `has_type_annotation`. -/
def Argument.from_arg_node (node : ArgNode) (annotation_type : AnnotationType) : Argument :=
  let new_arg : Argument :=
    { argname := node.arg, lineno := node.lineno, col_offset := node.col_offset,
      annotation_type := annotation_type,
      has_type_annot := false, has_3107_annot := false, has_type_comment := false }
  let new_arg :=
    if node.annot then
      { new_arg with has_type_annot := true, has_3107_annot := true }
    else new_arg
  if node.type_comment then
    { new_arg with has_type_annot := true, has_type_comment := true }
  else new_arg

/-- `models.Function._maybe_inject_class_argument`: prepend one `...`
placeholder slot to the parsed comment signature when the function is a
(non-staticmethod) method and the signature has fewer slots than the
function has arguments minus one (the return slot). -/
def _maybe_inject_class_argument (argtypes : List HintSlot) (func_obj : Function) :
    List HintSlot :=
  if !func_obj.is_class_method then
    argtypes
  else if !(func_obj.class_decorator_type == some ClassDecoratorType.STATICMETHOD) then
    if argtypes.length < func_obj.args.length - 1 then
      HintSlot.ellipsisSlot :: argtypes
    else argtypes
  else argtypes

/-- The `zip_longest` loop of `models.Function.try_type_comment`: pair each
argument with a comment-signature slot positionally; an `ast.Ellipsis` slot
is skipped, a real hint marks the paired argument as comment-annotated;
unpaired trailing arguments are left untouched. -/
def alignComment : List Argument → List HintSlot → List Argument
  | [], _ => []
  | arg :: rest, [] => arg :: rest
  | arg :: rest, slot :: hints =>
      (match slot with
       | HintSlot.ellipsisSlot => arg
       | HintSlot.hint =>
           { arg with has_type_annot := true, has_type_comment := true }) ::
        alignComment rest hints

/-- The tail of `models.Function.try_type_comment`: `func_obj.args[-1]` (the
return slot, always last) is marked comment-annotated unconditionally. -/
def markReturnLast : List Argument → List Argument
  | [] => []
  | [arg] => [{ arg with has_type_annot := true, has_type_comment := true }]
  | arg :: rest => arg :: markReturnLast rest

/-- `models.Function.try_type_comment`: the function-level comment string has
already been parsed externally (by `ast.parse(..., "func_type")`) into its
list of argument slots, which is what this definition receives. -/
def Function.try_type_comment (func_obj : Function) (argtypes : List HintSlot) : Function :=
  let argtypes := _maybe_inject_class_argument argtypes func_obj
  let args := alignComment func_obj.args argtypes
  let args := markReturnLast args
  { func_obj with args := args, is_return_annotated := true }

/-- The construction of the synthetic return Argument inside
`models.Function.from_function_node`: position from the colon seeker, flags
set only when `node.returns` is present. -/
def return_arg_of (def_end_lineno def_end_col_offset : Nat) (returns : Bool) : Argument :=
  { argname := "return", lineno := def_end_lineno, col_offset := def_end_col_offset,
    annotation_type := AnnotationType.RETURN,
    has_type_annot := returns, has_3107_annot := returns, has_type_comment := false }

/-- The per-kind argument lists of an `ast.arguments` node, in the order of
`AST_ARG_TYPES`. Modelled from the spec for the order: `AST_ARG_TYPES` lives
in `visitors.py`, which is not under `src/`; spec section 3 fixes the order
positional-only, positional-or-keyword, vararg, keyword-only, kwarg. -/
structure ArgumentsNode where
  posonlyargs : List ArgNode
  args : List ArgNode
  vararg : Option ArgNode
  kwonlyargs : List ArgNode
  kwarg : Option ArgNode
deriving DecidableEq

/-- The argument-collection loop of `models.Function.from_function_node`:
one Argument per parameter node, tagged with its kind, in
`AST_ARG_TYPES` order. -/
def collectArgs (node_args : ArgumentsNode) : List Argument :=
  (node_args.posonlyargs.map
      (fun node => Argument.from_arg_node node AnnotationType.POSONLYARG))
    ++ (node_args.args.map (fun node => Argument.from_arg_node node AnnotationType.ARG))
    ++ (match node_args.vararg with
        | some node => [Argument.from_arg_node node AnnotationType.VARARG]
        | none => [])
    ++ (node_args.kwonlyargs.map
        (fun node => Argument.from_arg_node node AnnotationType.KWONLYARG))
    ++ (match node_args.kwarg with
        | some node => [Argument.from_arg_node node AnnotationType.KWARG]
        | none => [])

/-- The fields of an `ast.FunctionDef` node read by
`models.Function.from_function_node`; `returns` is whether `node.returns` is
present, and `type_comment` carries the externally parsed argument slots of
the function-level type comment, when one is present. -/
structure FunctionNode where
  name : String
  lineno : Nat
  col_offset : Nat
  decorator_list : List Decorator
  args : ArgumentsNode
  returns : Bool
  type_comment : Option (List HintSlot)
deriving DecidableEq

/-- `models.Function.from_function_node`. The colon position
(`def_end_lineno`, `def_end_col_offset`) is the result of `colon_seeker`,
which only reads the raw source lines and carries no semantic weight, and
`has_only_none_returns` is the result of the `ReturnVisitor` walk
(`visitors.py`, not under `src/`); both are taken as inputs here. -/
def Function.from_function_node (node : FunctionNode) (is_class_method : Bool)
    (is_nested : Bool) (def_end_lineno def_end_col_offset : Nat)
    (has_only_none_returns : Bool) : Function :=
  let function_type := Function.get_function_type node.name
  let class_decorator_type :=
    if is_class_method then Function.get_class_decorator_type node.decorator_list
    else none
  let return_arg := return_arg_of def_end_lineno def_end_col_offset node.returns
  let new_function : Function :=
    { name := node.name, lineno := node.lineno, col_offset := node.col_offset,
      function_type := function_type, is_class_method := is_class_method,
      class_decorator_type := class_decorator_type,
      is_return_annotated := node.returns,
      has_type_comment := false,
      has_only_none_returns := has_only_none_returns,
      is_nested := is_nested,
      decorator_list := node.decorator_list,
      args := collectArgs node.args ++ [return_arg] }
  match node.type_comment with
  | some argtypes =>
      Function.try_type_comment { new_function with has_type_comment := true } argtypes
  | none => new_function

/-- `checker._return_error_classifier`: classify a missing return
annotation. Decorated class methods take priority, then the
name-derived function type decides. -/
def _return_error_classifier (is_class_method : Bool)
    (class_decorator_type : Option ClassDecoratorType)
    (function_type : FunctionType) : Error :=
  if is_class_method
      && (class_decorator_type == some ClassDecoratorType.CLASSMETHOD) then
    Error.ANN206
  else if is_class_method
      && (class_decorator_type == some ClassDecoratorType.STATICMETHOD) then
    Error.ANN205
  else if function_type == FunctionType.SPECIAL then Error.ANN204
  else if function_type == FunctionType.PRIVATE then Error.ANN203
  else if function_type == FunctionType.PROTECTED then Error.ANN202
  else Error.ANN201

/-- `checker._argument_error_classifier`: classify a missing argument
annotation. The first argument of a non-staticmethod method reports the
receiver codes; everything else is decided by the slot kind. -/
def _argument_error_classifier (is_class_method is_first_arg : Bool)
    (class_decorator_type : Option ClassDecoratorType)
    (annotation_type : AnnotationType) : Error :=
  if is_class_method && is_first_arg
      && (class_decorator_type == some ClassDecoratorType.CLASSMETHOD) then
    Error.ANN102
  else if is_class_method && is_first_arg
      && !(class_decorator_type == some ClassDecoratorType.STATICMETHOD) then
    Error.ANN101
  else if annotation_type == AnnotationType.KWARG then Error.ANN003
  else if annotation_type == AnnotationType.VARARG then Error.ANN002
  else Error.ANN001

/-- Modelled from the spec: `error_codes.py` is not under `src/`. Per spec
section 6 the output stream consists of `(line, column, diagnostic code)`
records; message rendering is external. -/
structure Diagnostic where
  lineno : Nat
  col_offset : Nat
  code : Error
deriving DecidableEq

/-- `error_codes.Error.from_argument` (modelled from the spec: the code is
bound to the argument's location). -/
def Error.from_argument (code : Error) (arg : Argument) : Diagnostic :=
  { lineno := arg.lineno, col_offset := arg.col_offset, code := code }

/-- `error_codes.Error.from_function` (modelled from the spec: the code is
bound to the function's location). -/
def Error.from_function (code : Error) (function : Function) : Diagnostic :=
  { lineno := function.lineno, col_offset := function.col_offset, code := code }

/-- `checker.classify_error`: return slots go to the return classifier,
other slots to the argument classifier, with `is_first_arg` computed by
comparison with `function.args[0]`. -/
def classify_error (function : Function) (arg : Argument) : Diagnostic :=
  if arg.argname == "return" then
    Error.from_argument
      (_return_error_classifier function.is_class_method function.class_decorator_type
        function.function_type) arg
  else
    let is_first_arg := function.args.head? == some arg
    Error.from_argument
      (_argument_error_classifier function.is_class_method is_first_arg
        function.class_decorator_type arg.annotation_type) arg

/-- The configuration record set on `checker.TypeHintChecker` by flake8's
option parser (decorator sets are stored as name collections). -/
structure Config where
  suppress_none_returning : Bool
  suppress_dummy_args : Bool
  allow_untyped_defs : Bool
  allow_untyped_nested : Bool
  mypy_init_return : Bool
  dispatch_decorators : List String
  overload_decorators : List String
deriving DecidableEq

/-- The default configuration (`checker.py` option defaults). -/
def defaultConfig : Config :=
  { suppress_none_returning := false, suppress_dummy_args := false,
    allow_untyped_defs := false, allow_untyped_nested := false,
    mypy_init_return := false,
    dispatch_decorators := ["singledispatch", "singledispatchmethod"],
    overload_decorators := ["overload"] }

/-- The mixed-style detection loop of `checker.TypeHintChecker.run`, with
its two sentinel booleans threaded explicitly: after each annotated
argument updates the sentinels, ANN301 is yielded (once, breaking the loop)
as soon as both styles have been seen. -/
def mixedLoop (function : Function) (has_type_comment has_3107 : Bool) :
    List Argument → List Diagnostic
  | [] => []
  | arg :: rest =>
      let htc := has_type_comment || arg.has_type_comment
      let h37 := has_3107 || arg.has_3107_annot
      if htc && h37 then [Error.from_function Error.ANN301 function]
      else mixedLoop function htc h37 rest

/-- The mixed-style check of `checker.TypeHintChecker.run` for one function:
the comment sentinel starts from the function-level type comment, the 3107
sentinel starts false, and the loop runs over the annotated arguments. -/
def mixedStyleScan (function : Function) : List Diagnostic :=
  mixedLoop function function.has_type_comment false function.get_annotated_arguments

/-- The body of the missing-annotation loop of `checker.TypeHintChecker.run`
for a single missing argument: the return slot can be suppressed by the
none-returning rule or the mypy `__init__` rule, a `_`-named argument by
the dummy-args rule; otherwise the classified error is yielded. -/
def missedEmit (cfg : Config) (function : Function) (arg : Argument) : Option Diagnostic :=
  if (arg.argname == "return")
      && ((cfg.suppress_none_returning && !arg.has_type_annot
            && function.has_only_none_returns)
          || (cfg.mypy_init_return && function.is_class_method
              && (function.name == "__init__")
              && !(function.get_annotated_arguments).isEmpty)) then
    none
  else if (arg.argname == "_") && cfg.suppress_dummy_args then
    none
  else
    some (classify_error function arg)

/-- The missing-annotation loop of `checker.TypeHintChecker.run` for one
function: iterate the missing slots in declaration order and yield the
non-suppressed diagnostics. -/
def emitMissed (cfg : Config) (function : Function) : List Diagnostic :=
  (function.get_missed_annotations).filterMap (missedEmit cfg function)

/-- One iteration of the per-function loop of `checker.TypeHintChecker.run`:
skip dynamically typed functions when configured, skip dispatch-decorated
functions, run the mixed-style check, then either skip the rest for the
closer of an overload series or record an overload decoration and emit the
missing-annotation diagnostics. Returns the updated pending-overload name
and this function's emitted diagnostics, in order. -/
def runStep (cfg : Config) (state : Option String) (function : Function) :
    Option String × List Diagnostic :=
  if function.is_dynamically_typed && cfg.allow_untyped_defs then (state, [])
  else if function.is_dynamically_typed && function.is_nested
      && cfg.allow_untyped_nested then (state, [])
  else if function.has_decorator cfg.dispatch_decorators then (state, [])
  else
    let mixed := mixedStyleScan function
    if state == some function.name then (state, mixed)
    else if function.has_decorator cfg.overload_decorators then
      (some function.name, mixed ++ emitMissed cfg function)
    else
      (state, mixed ++ emitMissed cfg function)

/-- The per-function loop of `checker.TypeHintChecker.run`, threading the
`last_overload_decorated_function_name` state through the file's functions
in source order. -/
def runFunctions (cfg : Config) : Option String → List Function → List Diagnostic
  | _, [] => []
  | state, function :: rest =>
      let step := runStep cfg state function
      step.snd ++ runFunctions cfg step.fst rest

/-- `checker.TypeHintChecker.run`: the pending-overload state starts out
`None` for each file. -/
def run (cfg : Config) (function_definitions : List Function) : List Diagnostic :=
  runFunctions cfg none function_definitions

/-- The conditions under which `checker.TypeHintChecker.run` skips a
function before the mixed-style check: dynamically typed and allowed
untyped (globally, or nested), or dispatch-decorated. -/
def skipsBefore (cfg : Config) (function : Function) : Bool :=
  (function.is_dynamically_typed
      && (cfg.allow_untyped_defs
          || (function.is_nested && cfg.allow_untyped_nested)))
    || function.has_decorator cfg.dispatch_decorators

/-- The pending-overload state update performed by a non-skipped iteration
of `checker.TypeHintChecker.run`, in isolation. -/
def overloadStateUpdate (cfg : Config) (state : Option String) (function : Function) :
    Option String :=
  if state == some function.name then state
  else if function.has_decorator cfg.overload_decorators then some function.name
  else state

/-- The per-position (missing-annotation) part of a non-skipped iteration of
`checker.TypeHintChecker.run`, in isolation: nothing for the closer of an
overload series, the missing-annotation diagnostics otherwise. -/
def overloadMissedPart (cfg : Config) (state : Option String) (function : Function) :
    List Diagnostic :=
  if state == some function.name then []
  else emitMissed cfg function

/-- The condition under which the mixed-style loop fires: a comment-style
annotation occurs (at the function level or on an annotated slot) and a
3107-style annotation occurs on an annotated slot. -/
def mixedCondition (function : Function) : Bool :=
  (function.has_type_comment
      || (function.get_annotated_arguments).any (fun arg => arg.has_type_comment))
    && (function.get_annotated_arguments).any (fun arg => arg.has_3107_annot)

/-- Modelled from the spec's words (section 4.4), for comparison with
`_return_error_classifier`: "Priority: STATICMETHOD -> code S1; CLASSMETHOD
-> code S2; else by function_type: SPECIAL -> R1, PRIVATE -> R2, PROTECTED
-> R3, PUBLIC -> R4", the decorator cases applying only to methods. -/
def return_code_spec (is_method : Bool)
    (class_decorator_type : Option ClassDecoratorType)
    (function_type : FunctionType) : Error :=
  if is_method && (class_decorator_type == some ClassDecoratorType.STATICMETHOD) then
    Error.ANN205
  else if is_method && (class_decorator_type == some ClassDecoratorType.CLASSMETHOD) then
    Error.ANN206
  else
    match function_type with
    | FunctionType.SPECIAL => Error.ANN204
    | FunctionType.PRIVATE => Error.ANN203
    | FunctionType.PROTECTED => Error.ANN202
    | FunctionType.PUBLIC => Error.ANN201

/-- Modelled from the spec's words (section 4.4), for comparison with
`_argument_error_classifier`: "If is_method and is_first_argument and not
STATICMETHOD: CLASSMETHOD -> code C1, otherwise -> code C2. Otherwise, by
annotation_type: KWARG -> code A3, VARARG -> code A2, else -> code A1". -/
def argument_code_spec (is_method is_first_argument : Bool)
    (class_decorator_type : Option ClassDecoratorType)
    (annotation_type : AnnotationType) : Error :=
  if is_method && is_first_argument
      && !(class_decorator_type == some ClassDecoratorType.STATICMETHOD) then
    if class_decorator_type == some ClassDecoratorType.CLASSMETHOD then Error.ANN102
    else Error.ANN101
  else
    match annotation_type with
    | AnnotationType.KWARG => Error.ANN003
    | AnnotationType.VARARG => Error.ANN002
    | _ => Error.ANN001

/-- The Argument invariant of spec section 3: annotated exactly when one of
the two style flags is set. -/
def argInvariant (arg : Argument) : Bool :=
  arg.has_type_annot == (arg.has_3107_annot || arg.has_type_comment)

/-- Whether a decorator is a bare `ast.Name` (the only shape consulted by
`get_class_decorator_type`). -/
def isBareName : Decorator → Bool
  | Decorator.name _ => true
  | _ => false

/-- An unannotated ordinary parameter, for the overload-series example. -/
def ovArgX1 : Argument :=
  { argname := "x", lineno := 1, col_offset := 8,
    annotation_type := AnnotationType.ARG,
    has_type_annot := false, has_3107_annot := false, has_type_comment := false }

/-- The unannotated return slot of the first overload-series function. -/
def ovRet1 : Argument :=
  { argname := "return", lineno := 1, col_offset := 11,
    annotation_type := AnnotationType.RETURN,
    has_type_annot := false, has_3107_annot := false, has_type_comment := false }

/-- First function of the overload-series example: `@overload`-decorated,
named `foo`, completely unannotated. -/
def ovF1 : Function :=
  { name := "foo", lineno := 1, col_offset := 0,
    function_type := FunctionType.PUBLIC, is_class_method := false,
    class_decorator_type := none, is_return_annotated := false,
    has_type_comment := false, has_only_none_returns := true, is_nested := false,
    decorator_list := [Decorator.name "overload"],
    args := [ovArgX1, ovRet1] }

/-- Second function of the overload-series example: the same but defined at
line 3. -/
def ovF2 : Function :=
  { ovF1 with
    lineno := 3,
    args := [{ ovArgX1 with lineno := 3 }, { ovRet1 with lineno := 3 }] }

/-- Third function of the overload-series example: same name, no decorators,
defined at line 5, still unannotated. -/
def ovF3 : Function :=
  { ovF1 with
    lineno := 5,
    decorator_list := [],
    args := [{ ovArgX1 with lineno := 5 }, { ovRet1 with lineno := 5 }] }

/-- The `self` parameter node shared by both forms of the alignment example. -/
def selfNode : ArgNode :=
  { arg := "self", lineno := 1, col_offset := 8, annot := false, type_comment := false }

/-- The `a` parameter node without an inline annotation
(`def bar(self, a):  # type: (int) -> int`). -/
def aNodePlain : ArgNode :=
  { arg := "a", lineno := 1, col_offset := 14, annot := false, type_comment := false }

/-- The `a` parameter node with an inline annotation
(`def bar(self, a: int) -> int:`). -/
def aNodeInline : ArgNode :=
  { arg := "a", lineno := 1, col_offset := 14, annot := true, type_comment := false }

/-- The node of `def bar(self, a):  # type: (int) -> int` — one real hint
slot in the function-level comment, no inline annotations, no return
annotation. -/
def barCommentNode : FunctionNode :=
  { name := "bar", lineno := 1, col_offset := 4, decorator_list := [],
    args := { posonlyargs := [], args := [selfNode, aNodePlain], vararg := none,
              kwonlyargs := [], kwarg := none },
    returns := false, type_comment := some [HintSlot.hint] }

/-- The node of `def bar(self, a: int) -> int:` — inline annotations on `a`
and on the return, no type comment. -/
def barInlineNode : FunctionNode :=
  { name := "bar", lineno := 1, col_offset := 4, decorator_list := [],
    args := { posonlyargs := [], args := [selfNode, aNodeInline], vararg := none,
              kwonlyargs := [], kwarg := none },
    returns := true, type_comment := none }

/-- The built model of the comment-annotated method form. -/
def barCommentFn : Function :=
  Function.from_function_node barCommentNode true false 1 16 true

/-- The built model of the inline-annotated method form. -/
def barInlineFn : Function :=
  Function.from_function_node barInlineNode true false 1 28 true

/-- An inline-annotated parameter, for the mixed-style example. -/
def mixedArgA : Argument :=
  { argname := "a", lineno := 10, col_offset := 6,
    annotation_type := AnnotationType.ARG,
    has_type_annot := true, has_3107_annot := true, has_type_comment := false }

/-- A comment-annotated parameter, for the mixed-style example. -/
def mixedArgB : Argument :=
  { argname := "b", lineno := 10, col_offset := 9,
    annotation_type := AnnotationType.ARG,
    has_type_annot := true, has_3107_annot := false, has_type_comment := true }

/-- The unannotated return slot of the mixed-style example. -/
def mixedRet : Argument :=
  { argname := "return", lineno := 10, col_offset := 14,
    annotation_type := AnnotationType.RETURN,
    has_type_annot := false, has_3107_annot := false, has_type_comment := false }

/-- A plain function mixing one inline-annotated and one comment-annotated
parameter. -/
def mixedFn : Function :=
  { name := "mixed", lineno := 10, col_offset := 0,
    function_type := FunctionType.PUBLIC, is_class_method := false,
    class_decorator_type := none, is_return_annotated := false,
    has_type_comment := false, has_only_none_returns := false, is_nested := false,
    decorator_list := [], args := [mixedArgA, mixedArgB, mixedRet] }

/-- The unannotated `self` of the `__init__` example. -/
def initSelf : Argument :=
  { argname := "self", lineno := 20, col_offset := 13,
    annotation_type := AnnotationType.ARG,
    has_type_annot := false, has_3107_annot := false, has_type_comment := false }

/-- The inline-annotated `x` of the `__init__` example. -/
def initX : Argument :=
  { argname := "x", lineno := 20, col_offset := 19,
    annotation_type := AnnotationType.ARG,
    has_type_annot := true, has_3107_annot := true, has_type_comment := false }

/-- The unannotated return slot of the `__init__` example. -/
def initRet : Argument :=
  { argname := "return", lineno := 20, col_offset := 28,
    annotation_type := AnnotationType.RETURN,
    has_type_annot := false, has_3107_annot := false, has_type_comment := false }

/-- A method `__init__(self, x: int)` with an unannotated return. -/
def initFn : Function :=
  { name := "__init__", lineno := 20, col_offset := 4,
    function_type := FunctionType.SPECIAL, is_class_method := true,
    class_decorator_type := none, is_return_annotated := false,
    has_type_comment := false, has_only_none_returns := true, is_nested := false,
    decorator_list := [], args := [initSelf, initX, initRet] }

/-- The default configuration with the mypy `__init__` return rule enabled. -/
def mypyConfig : Config :=
  { defaultConfig with mypy_init_return := true }

/-- Decomposition of one emission-loop iteration: a skipped function
contributes nothing and leaves the state alone; otherwise the output is the
mixed-style scan followed by the overload-gated missing-annotation part,
and the state update is the overload-state update. -/
theorem runStep_eq (cfg : Config) (s : Option String) (f : Function) :
    runStep cfg s f =
      if skipsBefore cfg f then (s, [])
      else (overloadStateUpdate cfg s f,
        mixedStyleScan f ++ overloadMissedPart cfg s f) := by
  cases hd : f.is_dynamically_typed <;>
    cases ha : cfg.allow_untyped_defs <;>
      cases hn : f.is_nested <;>
        cases hu : cfg.allow_untyped_nested <;>
          cases hp : f.has_decorator cfg.dispatch_decorators <;>
            cases hs : s == some f.name <;>
              cases ho : f.has_decorator cfg.overload_decorators <;>
                simp [runStep, skipsBefore, overloadStateUpdate, overloadMissedPart,
                  hd, ha, hn, hu, hp, hs, ho]

/-- A non-skipped iteration in explicit form. -/
theorem runStep_not_skipped (cfg : Config) (s : Option String) (f : Function)
    (h : skipsBefore cfg f = false) :
    runStep cfg s f
      = (overloadStateUpdate cfg s f,
        mixedStyleScan f ++ overloadMissedPart cfg s f) := by
  rw [runStep_eq]
  simp [h]

/-- C1: the return-slot classifier is a total function of exactly
(is_class_method, class_decorator_type, function_type), agreeing everywhere
with the spec's table (STATICMETHOD gives ANN205 and CLASSMETHOD gives
ANN206 for methods regardless of function_type; otherwise SPECIAL, PRIVATE,
PROTECTED, PUBLIC give ANN204, ANN203, ANN202, ANN201), and for
non-methods the class_decorator_type is ignored. -/
theorem C1_return_classifier_total_table :
    (∀ (is_class_method : Bool) (class_decorator_type : Option ClassDecoratorType)
        (function_type : FunctionType),
      _return_error_classifier is_class_method class_decorator_type function_type
        = return_code_spec is_class_method class_decorator_type function_type)
    ∧ (∀ (cdt1 cdt2 : Option ClassDecoratorType) (function_type : FunctionType),
      _return_error_classifier false cdt1 function_type
        = _return_error_classifier false cdt2 function_type) := by
  constructor <;> decide

/-- C2: the argument classifier returns ANN102 for the first argument of a
classmethod, ANN101 for the first argument of a plain instance method, and
in every other case decides by annotation_type alone (KWARG gives ANN003,
VARARG gives ANN002, everything else ANN001), agreeing everywhere with the
spec's table. -/
theorem C2_argument_classifier_total_table :
    ∀ (is_class_method is_first_arg : Bool)
      (class_decorator_type : Option ClassDecoratorType)
      (annotation_type : AnnotationType),
      _argument_error_classifier is_class_method is_first_arg class_decorator_type
          annotation_type
        = argument_code_spec is_class_method is_first_arg class_decorator_type
            annotation_type := by
  decide

/-- C3 counterexample: in the three-function overload series `ovF1, ovF2,
ovF3` (same name, first two `@overload`-decorated, third not, all fully
unannotated), the emission pass under the default configuration emits two
missing-annotation diagnostics, both located on line 1 — that is, on the
FIRST (overload-decorated) function — and none for the third function (line
5); the claim states the first two emit none and only the third can emit. -/
theorem C3_counterexample :
    run defaultConfig [ovF1, ovF2, ovF3]
      = [{ lineno := 1, col_offset := 8, code := Error.ANN001 },
         { lineno := 1, col_offset := 11, code := Error.ANN201 }] := by
  decide

/-- C3 (amended): in a run of three consecutive same-named functions where
the first decorator-matches the overload set, the emission pass emits the
FIRST function's missing-annotation diagnostics as usual, and the second
and third functions (matching the stored pending-overload name) emit no
missing-annotation diagnostics at all — only their mixed-style scans. -/
theorem C3_overload_series (cfg : Config) (f1 f2 f3 : Function)
    (h1d : f1.has_decorator cfg.overload_decorators = true)
    (h2n : f2.name = f1.name) (h3n : f3.name = f1.name)
    (_h2d : f2.has_decorator cfg.overload_decorators = true)
    (_h3d : f3.has_decorator cfg.overload_decorators = false)
    (hs1 : skipsBefore cfg f1 = false)
    (hs2 : skipsBefore cfg f2 = false)
    (hs3 : skipsBefore cfg f3 = false) :
    run cfg [f1, f2, f3]
      = mixedStyleScan f1 ++ emitMissed cfg f1
        ++ mixedStyleScan f2 ++ mixedStyleScan f3 := by
  have hne : ((none : Option String) == some f1.name) = false := rfl
  have e1 : runStep cfg none f1
      = (some f1.name, mixedStyleScan f1 ++ emitMissed cfg f1) := by
    rw [runStep_not_skipped cfg none f1 hs1]
    simp [overloadStateUpdate, overloadMissedPart, h1d, hne]
  have e2 : runStep cfg (some f1.name) f2 = (some f1.name, mixedStyleScan f2) := by
    rw [runStep_not_skipped cfg (some f1.name) f2 hs2]
    simp [overloadStateUpdate, overloadMissedPart, h2n]
  have e3 : runStep cfg (some f1.name) f3 = (some f1.name, mixedStyleScan f3) := by
    rw [runStep_not_skipped cfg (some f1.name) f3 hs3]
    simp [overloadStateUpdate, overloadMissedPart, h3n]
  simp [run, runFunctions, e1, e2, e3, List.append_assoc]

/-- C4: the pending-overload state starts empty, is never cleared by a step
(it is either kept or set to the current function's name); when it equals
the current function's name the step keeps it unchanged and emits no
per-position diagnostics (at most the mixed-style scan); when it differs
and the function decorator-matches the overload set (and is not skipped
earlier), the state is set to that function's name while the function's own
missing positions are still emitted in the same step. -/
theorem C4_pending_overload_state (cfg : Config) (f : Function) (s : Option String)
    (fs0 : List Function) :
    (run cfg fs0 = runFunctions cfg none fs0)
    ∧ ((runStep cfg s f).fst = s ∨ (runStep cfg s f).fst = some f.name)
    ∧ ((s == some f.name) = true →
        (runStep cfg s f).fst = s
          ∧ (runStep cfg s f).snd
              = (if skipsBefore cfg f then [] else mixedStyleScan f))
    ∧ ((s == some f.name) = false →
        f.has_decorator cfg.overload_decorators = true →
        skipsBefore cfg f = false →
        runStep cfg s f = (some f.name, mixedStyleScan f ++ emitMissed cfg f)) := by
  refine ⟨rfl, ?_, ?_, ?_⟩
  · rw [runStep_eq]
    cases hk : skipsBefore cfg f
    · cases hb : s == some f.name
      · cases ho : f.has_decorator cfg.overload_decorators
        · exact Or.inl (by simp [overloadStateUpdate, hb, ho])
        · exact Or.inr (by simp [overloadStateUpdate, hb, ho])
      · exact Or.inl (by simp [overloadStateUpdate, hb])
    · exact Or.inl (by simp)
  · intro hb
    rw [runStep_eq]
    cases hk : skipsBefore cfg f
    · exact ⟨by simp [overloadStateUpdate, hb], by simp [overloadMissedPart, hb]⟩
    · exact ⟨by simp, by simp⟩
  · intro hb ho hk
    rw [runStep_not_skipped cfg s f hk]
    simp [overloadStateUpdate, overloadMissedPart, hb, ho]

/-- C4 witness: the decorator-match clause applied to the first concrete
overload-series function with an empty state. -/
theorem C4_pending_overload_state_witness :
    runStep defaultConfig none ovF1
      = (some ovF1.name, mixedStyleScan ovF1 ++ emitMissed defaultConfig ovF1) :=
  (C4_pending_overload_state defaultConfig ovF1 none []).2.2.2
    (by decide) (by decide) (by decide)

/-- The mixed-style loop in closed form: it yields the ANN301 diagnostic
exactly when the final values of its two sentinels would both be true and
at least one argument was scanned. -/
theorem mixedLoop_eq (f : Function) :
    ∀ (l : List Argument) (a b : Bool),
      mixedLoop f a b l
        = if ((a || l.any fun arg => arg.has_type_comment)
              && (b || l.any fun arg => arg.has_3107_annot)
              && !l.isEmpty) then
            [Error.from_function Error.ANN301 f]
          else [] := by
  intro l
  induction l with
  | nil => intro a b; simp [mixedLoop]
  | cons x xs ih =>
    intro a b
    simp only [mixedLoop]
    rw [ih]
    cases xs with
    | nil =>
      cases a <;> cases b <;> cases hc : x.has_type_comment <;>
        cases hh : x.has_3107_annot <;> simp [hc, hh]
    | cons y ys =>
      cases a <;> cases b <;> cases hc : x.has_type_comment <;>
        cases hh : x.has_3107_annot <;>
          simp [hc, hh, Bool.or_assoc, List.any_cons]

/-- The mixed-style scan of one function fires exactly on `mixedCondition`. -/
theorem mixedStyleScan_eq (f : Function) :
    mixedStyleScan f
      = if mixedCondition f then [Error.from_function Error.ANN301 f] else [] := by
  rw [mixedStyleScan, mixedLoop_eq]
  cases hH : (f.get_annotated_arguments).any (fun arg => arg.has_3107_annot)
  · simp [mixedCondition, hH]
  · have hne : (f.get_annotated_arguments).isEmpty = false := by
      cases hl : f.get_annotated_arguments
      · rw [hl] at hH; simp at hH
      · simp
    simp [mixedCondition, hH, hne]

/-- The return classifier never yields the mixed-style code ANN301. -/
theorem return_classifier_ne_ANN301 :
    ∀ (icm : Bool) (cdt : Option ClassDecoratorType) (ft : FunctionType),
      _return_error_classifier icm cdt ft ≠ Error.ANN301 := by
  decide

/-- The argument classifier never yields the mixed-style code ANN301. -/
theorem argument_classifier_ne_ANN301 :
    ∀ (icm first : Bool) (cdt : Option ClassDecoratorType) (ty : AnnotationType),
      _argument_error_classifier icm first cdt ty ≠ Error.ANN301 := by
  decide

/-- `classify_error` never yields the mixed-style code ANN301. -/
theorem classify_error_code_ne_ANN301 (function : Function) (arg : Argument) :
    (classify_error function arg).code ≠ Error.ANN301 := by
  unfold classify_error
  cases hr : arg.argname == "return"
  · simp only [hr, Bool.false_eq_true, if_false, Error.from_argument]
    exact argument_classifier_ne_ANN301 _ _ _ _
  · simp only [hr, if_true, Error.from_argument]
    exact return_classifier_ne_ANN301 _ _ _

/-- The missing-annotation loop never emits ANN301. -/
theorem emitMissed_countP_ANN301 (cfg : Config) (f : Function) :
    (emitMissed cfg f).countP (fun d => d.code == Error.ANN301) = 0 := by
  rw [List.countP_eq_zero]
  intro d hd
  rw [emitMissed, List.mem_filterMap] at hd
  obtain ⟨arg, _, hemit⟩ := hd
  unfold missedEmit at hemit
  split at hemit
  · cases hemit
  · split at hemit
    · cases hemit
    · have hde : classify_error f arg = d := by injection hemit
      subst hde
      simp only [beq_iff_eq]
      exact classify_error_code_ne_ANN301 f arg

/-- The overload-gated missing-annotation part never emits ANN301. -/
theorem overloadMissedPart_countP_ANN301 (cfg : Config) (s : Option String)
    (f : Function) :
    (overloadMissedPart cfg s f).countP (fun d => d.code == Error.ANN301) = 0 := by
  unfold overloadMissedPart
  split
  · rfl
  · exact emitMissed_countP_ANN301 cfg f

/-- C6: for every function that reaches the mixed-style check, the step
emits the ANN301 diagnostic exactly once if and only if both a
comment-style annotation (the function-level comment counting) and an
inline 3107-style annotation occur among its annotated positions, and zero
times otherwise; and the mixed-style scan suppresses neither the overload
state update nor the per-position missing-annotation diagnostics. -/
theorem C6_mixed_style (cfg : Config) (f : Function) (s : Option String)
    (h : skipsBefore cfg f = false) :
    ((runStep cfg s f).snd.countP (fun d => d.code == Error.ANN301)
        = if mixedCondition f then 1 else 0)
    ∧ (runStep cfg s f).fst = overloadStateUpdate cfg s f
    ∧ (runStep cfg s f).snd = mixedStyleScan f ++ overloadMissedPart cfg s f := by
  rw [runStep_not_skipped cfg s f h]
  refine ⟨?_, rfl, rfl⟩
  rw [List.countP_append, overloadMissedPart_countP_ANN301, mixedStyleScan_eq]
  cases hm : mixedCondition f
  · simp
  · simp [Error.from_function]

/-- C6 witness: the statement applied to the concrete mixed-style function. -/
theorem C6_mixed_style_witness :
    ((runStep defaultConfig none mixedFn).snd.countP (fun d => d.code == Error.ANN301)
        = if mixedCondition mixedFn then 1 else 0)
    ∧ (runStep defaultConfig none mixedFn).fst
        = overloadStateUpdate defaultConfig none mixedFn
    ∧ (runStep defaultConfig none mixedFn).snd
        = mixedStyleScan mixedFn ++ overloadMissedPart defaultConfig none mixedFn :=
  C6_mixed_style defaultConfig mixedFn none (by decide)

/-- Pulling a `filterMap` through a `filter` that only drops inputs the
`filterMap` maps to `none`. -/
theorem filterMap_eq_filterMap_filter {α β : Type} (g : α → Option β) (p : α → Bool)
    (hnone : ∀ a, p a = false → g a = none) :
    ∀ l : List α, l.filterMap g = (l.filter p).filterMap g := by
  intro l
  induction l with
  | nil => rfl
  | cons x xs ih =>
    cases hp : p x
    · rw [List.filterMap_cons, hnone x hp, List.filter_cons]
      simp [hp, ih]
    · rw [List.filter_cons]
      simp [hp, List.filterMap_cons, ih]

/-- C7: with `mypy_init_return` configured, a method named exactly
`__init__` with at least one annotated argument has its return slot
suppressed — the emitted stream equals the one computed from the
non-return missing slots alone — while for a non-method the missing return
slot's diagnostic is still emitted (with the none-returning rule off). -/
theorem C7_mypy_init_return (cfg : Config) (f : Function)
    (hm : cfg.mypy_init_return = true)
    (hcm : f.is_class_method = true)
    (hname : f.name = "__init__")
    (hann : f.get_annotated_arguments ≠ []) :
    (emitMissed cfg f
        = ((f.get_missed_annotations).filter
            (fun arg => !(arg.argname == "return"))).filterMap (missedEmit cfg f))
    ∧ (∀ (g : Function) (r : Argument), g.is_class_method = false →
        r ∈ g.get_missed_annotations → r.argname = "return" →
        cfg.suppress_none_returning = false →
        classify_error g r ∈ emitMissed cfg g) := by
  constructor
  · have hsup : ∀ arg : Argument, (!(arg.argname == "return")) = false →
        missedEmit cfg f arg = none := by
      intro arg harg
      have hret : (arg.argname == "return") = true := by
        cases hx : arg.argname == "return"
        · rw [hx] at harg; simp at harg
        · rfl
      have hie : (f.get_annotated_arguments).isEmpty = false := by
        cases hl : f.get_annotated_arguments
        · exact absurd hl hann
        · simp
      simp [missedEmit, hret, hm, hcm, hname, hie]
    exact filterMap_eq_filterMap_filter (missedEmit cfg f)
      (fun arg => !(arg.argname == "return")) hsup f.get_missed_annotations
  · intro g r hgcm hr hrname hsnr
    rw [emitMissed, List.mem_filterMap]
    refine ⟨r, hr, ?_⟩
    have h1 : (r.argname == "return") = true := by
      rw [hrname]; rfl
    have h2 : (r.argname == "_") = false := by
      rw [hrname]; rfl
    simp [missedEmit, h1, h2, hgcm, hsnr]

/-- C7 witness: the suppression clause applied to the concrete `__init__`
method under the mypy configuration. -/
theorem C7_mypy_init_return_witness :
    emitMissed mypyConfig initFn
      = ((initFn.get_missed_annotations).filter
          (fun arg => !(arg.argname == "return"))).filterMap (missedEmit mypyConfig initFn) :=
  (C7_mypy_init_return mypyConfig initFn rfl rfl rfl (by decide)).1

/-- C3 witness: the amended statement applied to the concrete series. -/
theorem C3_overload_series_witness :
    run defaultConfig [ovF1, ovF2, ovF3]
      = mixedStyleScan ovF1 ++ emitMissed defaultConfig ovF1
        ++ mixedStyleScan ovF2 ++ mixedStyleScan ovF3 :=
  C3_overload_series defaultConfig ovF1 ovF2 ovF3 (by decide) (by decide) (by decide)
    (by decide) (by decide) (by decide) (by decide) (by decide)

/-- C5: the comment-annotated method form `def bar(self, a)` with comment
`(int) -> int` yields a diagnostic stream identical to the inline form
`def bar(self, a: int) -> int:`; in both, `self` is the only unannotated
position and `a` and the return slot are annotated; and in general the
receiver-injection step prepends exactly one placeholder slot whenever the
function is a method, not a staticmethod, and the hint signature is shorter
than the argument count minus one. -/
theorem C5_type_comment_alignment :
    run defaultConfig [barCommentFn] = run defaultConfig [barInlineFn]
    ∧ (barCommentFn.get_missed_annotations).map (fun arg => arg.argname) = ["self"]
    ∧ (barInlineFn.get_missed_annotations).map (fun arg => arg.argname) = ["self"]
    ∧ (barCommentFn.get_annotated_arguments).map (fun arg => arg.argname)
        = ["a", "return"]
    ∧ (barInlineFn.get_annotated_arguments).map (fun arg => arg.argname)
        = ["a", "return"]
    ∧ (∀ (func_obj : Function) (argtypes : List HintSlot),
        func_obj.is_class_method = true →
        func_obj.class_decorator_type ≠ some ClassDecoratorType.STATICMETHOD →
        argtypes.length < func_obj.args.length - 1 →
        _maybe_inject_class_argument argtypes func_obj
          = HintSlot.ellipsisSlot :: argtypes) := by
  refine ⟨by decide, by decide, by decide, by decide, by decide, ?_⟩
  intro func_obj argtypes h1 h2 h3
  have hb : (func_obj.class_decorator_type
      == some ClassDecoratorType.STATICMETHOD) = false :=
    beq_eq_false_iff_ne.mpr h2
  simp [_maybe_inject_class_argument, h1, hb, h3]

/-- C5 witness: the injection clause applied to the comment form's concrete
model and hint signature. -/
theorem C5_type_comment_alignment_witness :
    _maybe_inject_class_argument [HintSlot.hint] barCommentFn
      = [HintSlot.ellipsisSlot, HintSlot.hint] :=
  C5_type_comment_alignment.2.2.2.2.2 barCommentFn [HintSlot.hint]
    (by decide) (by decide) (by decide)

/-- Marking a slot comment-annotated always satisfies the invariant. -/
theorem argInvariant_marked (arg : Argument) :
    argInvariant { arg with has_type_annot := true, has_type_comment := true } = true := by
  simp [argInvariant]

/-- Arguments built from parameter nodes satisfy the invariant. -/
theorem argInvariant_from_arg_node (node : ArgNode) (ty : AnnotationType) :
    argInvariant (Argument.from_arg_node node ty) = true := by
  cases ha : node.annot <;> cases ht : node.type_comment <;>
    simp [Argument.from_arg_node, argInvariant, ha, ht]

/-- The synthetic return slot satisfies the invariant. -/
theorem argInvariant_return_arg (l c : Nat) (returns : Bool) :
    argInvariant (return_arg_of l c returns) = true := by
  cases returns <;> simp [return_arg_of, argInvariant]

/-- The alignment loop preserves the invariant. -/
theorem alignComment_invariant :
    ∀ (l : List Argument) (hs : List HintSlot),
      (∀ arg ∈ l, argInvariant arg = true) →
      ∀ arg ∈ alignComment l hs, argInvariant arg = true := by
  intro l
  induction l with
  | nil =>
    intro hs _ arg harg
    simp [alignComment] at harg
  | cons x xs ih =>
    intro hs hinv arg harg
    cases hs with
    | nil =>
      simp only [alignComment] at harg
      exact hinv arg harg
    | cons slot hints =>
      simp only [alignComment] at harg
      rcases List.mem_cons.mp harg with h | h
      · subst h
        cases slot
        · exact argInvariant_marked x
        · exact hinv x (List.mem_cons_self x xs)
      · exact ih hints (fun a ha => hinv a (List.mem_cons_of_mem x ha)) arg h

/-- Marking the last slot preserves the invariant. -/
theorem markReturnLast_invariant :
    ∀ (l : List Argument),
      (∀ arg ∈ l, argInvariant arg = true) →
      ∀ arg ∈ markReturnLast l, argInvariant arg = true := by
  intro l
  induction l with
  | nil =>
    intro _ arg harg
    simp [markReturnLast] at harg
  | cons x xs ih =>
    intro hinv arg harg
    cases xs with
    | nil =>
      simp only [markReturnLast] at harg
      rcases List.mem_cons.mp harg with h | h
      · subst h
        exact argInvariant_marked x
      · simp at h
    | cons y ys =>
      simp only [markReturnLast] at harg
      rcases List.mem_cons.mp harg with h | h
      · rw [h]
        exact hinv x (List.mem_cons_self x (y :: ys))
      · exact ih (fun a ha => hinv a (List.mem_cons_of_mem x ha)) arg h

/-- The type-comment pass preserves the invariant across a whole argument
list. -/
theorem try_type_comment_invariant (func_obj : Function) (argtypes : List HintSlot) :
    func_obj.args.all argInvariant = true →
    (func_obj.try_type_comment argtypes).args.all argInvariant = true := by
  intro hinv
  rw [List.all_eq_true] at hinv ⊢
  intro arg harg
  have h1 := alignComment_invariant func_obj.args
    (_maybe_inject_class_argument argtypes func_obj) (fun a ha => hinv a ha)
  exact markReturnLast_invariant _ h1 arg harg

/-- Every collected parameter Argument satisfies the invariant. -/
theorem collectArgs_invariant (node_args : ArgumentsNode) :
    (collectArgs node_args).all argInvariant = true := by
  unfold collectArgs
  cases hv : node_args.vararg <;> cases hk : node_args.kwarg <;>
    simp [List.all_append, List.all_eq_true, List.mem_map,
      argInvariant_from_arg_node]

/-- Every Argument of a freshly built Function satisfies the invariant. -/
theorem from_function_node_invariant (node : FunctionNode) (icm nested : Bool)
    (l c : Nat) (honr : Bool) :
    (Function.from_function_node node icm nested l c honr).args.all argInvariant
      = true := by
  have hbase : (collectArgs node.args ++ [return_arg_of l c node.returns]).all
      argInvariant = true := by
    rw [List.all_append]
    simp [collectArgs_invariant, argInvariant_return_arg]
  cases hn : node.type_comment with
  | none =>
    simp only [Function.from_function_node, hn]
    exact hbase
  | some argtypes =>
    simp only [Function.from_function_node, hn]
    exact try_type_comment_invariant _ argtypes hbase

/-- C8: every Argument produced or mutated by the pipeline satisfies
`has_type_annotation == (has_3107_annotation or has_type_comment)`:
construction from a parameter node, construction of the return slot, the
legacy-comment alignment pass (which preserves it), and hence every
argument of a Function built by `from_function_node`. -/
theorem C8_argument_invariant :
    (∀ (node : ArgNode) (ty : AnnotationType),
        argInvariant (Argument.from_arg_node node ty) = true)
    ∧ (∀ (l c : Nat) (returns : Bool),
        argInvariant (return_arg_of l c returns) = true)
    ∧ (∀ (func_obj : Function) (argtypes : List HintSlot),
        func_obj.args.all argInvariant = true →
        (func_obj.try_type_comment argtypes).args.all argInvariant = true)
    ∧ (∀ (node : FunctionNode) (is_class_method is_nested : Bool)
        (def_end_lineno def_end_col_offset : Nat) (has_only_none_returns : Bool),
        (Function.from_function_node node is_class_method is_nested def_end_lineno
            def_end_col_offset has_only_none_returns).args.all argInvariant = true) :=
  ⟨argInvariant_from_arg_node, argInvariant_return_arg,
    try_type_comment_invariant, from_function_node_invariant⟩

/-- C8 witness: the preservation clause applied to a concrete function and
hint signature. -/
theorem C8_argument_invariant_witness :
    (Function.try_type_comment ovF1 [HintSlot.hint]).args.all argInvariant = true :=
  C8_argument_invariant.2.2.1 ovF1 [HintSlot.hint] (by decide)

/-- C9: `get_class_decorator_type` consults only bare-name decorators (a
non-Name decorator at the head changes nothing); whenever the bare name
`classmethod` appears it returns CLASSMETHOD regardless of position or of a
co-occurring `staticmethod`; and with neither bare name present it returns
none. -/
theorem C9_class_decorator_type (decorator_list : List Decorator) :
    (∀ d : Decorator, isBareName d = false →
        Function.get_class_decorator_type (d :: decorator_list)
          = Function.get_class_decorator_type decorator_list)
    ∧ (Decorator.name "classmethod" ∈ decorator_list →
        Function.get_class_decorator_type decorator_list
          = some ClassDecoratorType.CLASSMETHOD)
    ∧ ((∀ id : String, Decorator.name id ∈ decorator_list →
          id ≠ "classmethod" ∧ id ≠ "staticmethod") →
        Function.get_class_decorator_type decorator_list = none) := by
  refine ⟨?_, ?_, ?_⟩
  · intro d hd
    cases d with
    | name id => simp [isBareName] at hd
    | attr a => simp [Function.get_class_decorator_type, List.filterMap_cons]
    | call func => simp [Function.get_class_decorator_type, List.filterMap_cons]
    | other => simp [Function.get_class_decorator_type, List.filterMap_cons]
  · intro hmem
    have hc : "classmethod" ∈ decorator_list.filterMap (fun decorator =>
        match decorator with
        | Decorator.name id => some id
        | _ => none) :=
      List.mem_filterMap.mpr ⟨Decorator.name "classmethod", hmem, rfl⟩
    simp [Function.get_class_decorator_type, List.contains, hc]
  · intro hnone
    have hget : ∀ s : String, s ∈ decorator_list.filterMap (fun decorator =>
        match decorator with
        | Decorator.name id => some id
        | _ => none) → s ≠ "classmethod" ∧ s ≠ "staticmethod" := by
      intro s hs
      rcases List.mem_filterMap.mp hs with ⟨d, hd, hds⟩
      cases d with
      | name id =>
        have : id = s := by injection hds
        subst this
        exact hnone id hd
      | attr a => cases hds
      | call func => cases hds
      | other => cases hds
    have hc1 : "classmethod" ∉ decorator_list.filterMap (fun decorator =>
        match decorator with
        | Decorator.name id => some id
        | _ => none) := by
      intro hmem
      exact absurd rfl (hget "classmethod" hmem).1
    have hc2 : "staticmethod" ∉ decorator_list.filterMap (fun decorator =>
        match decorator with
        | Decorator.name id => some id
        | _ => none) := by
      intro hmem
      exact absurd rfl (hget "staticmethod" hmem).2
    simp [Function.get_class_decorator_type, List.contains, hc1, hc2]

/-- C9 witness: with `staticmethod` listed before `classmethod`, the result
is still CLASSMETHOD. -/
theorem C9_class_decorator_type_witness :
    Function.get_class_decorator_type
        [Decorator.name "staticmethod", Decorator.name "classmethod"]
      = some ClassDecoratorType.CLASSMETHOD :=
  (C9_class_decorator_type
      [Decorator.name "staticmethod", Decorator.name "classmethod"]).2.1
    (by simp)

/-- The annotated/missed filters split every occurrence count of the
argument list. -/
theorem args_count_partition (f : Function) (a : Argument) :
    f.args.count a
      = (f.get_annotated_arguments).count a + (f.get_missed_annotations).count a := by
  rw [Function.get_annotated_arguments, Function.get_missed_annotations]
  induction f.args with
  | nil => rfl
  | cons x xs ih =>
    cases hp : x.has_type_annot <;> cases hax : a == x <;>
      simp [List.filter_cons, hp, List.count_cons, hax, ih] <;> omega

/-- The annotated/missed filters split the length of the argument list. -/
theorem args_length_partition (f : Function) :
    (f.get_annotated_arguments).length + (f.get_missed_annotations).length
      = f.args.length := by
  rw [Function.get_annotated_arguments, Function.get_missed_annotations]
  induction f.args with
  | nil => rfl
  | cons x xs ih =>
    cases hp : x.has_type_annot <;> simp [List.filter_cons, hp] <;> omega

/-- C10: `get_annotated_arguments` and `get_missed_annotations` partition
the argument list (every argument is counted exactly once between them, and
both are order-preserving sublists of `args`); `is_dynamically_typed` holds
iff the annotated list is empty, `is_fully_annotated` iff the missed list
is empty, and a Function with a non-empty argument list is never both. -/
theorem C10_args_partition (f : Function) (h : f.args ≠ []) :
    (∀ a : Argument,
        f.args.count a
          = (f.get_annotated_arguments).count a + (f.get_missed_annotations).count a)
    ∧ List.Sublist f.get_annotated_arguments f.args
    ∧ List.Sublist f.get_missed_annotations f.args
    ∧ (f.is_dynamically_typed = true ↔ f.get_annotated_arguments = [])
    ∧ (f.is_fully_annotated = true ↔ f.get_missed_annotations = [])
    ∧ ¬(f.is_fully_annotated = true ∧ f.is_dynamically_typed = true) := by
  have hdyn : f.is_dynamically_typed = true ↔ f.get_annotated_arguments = [] := by
    simp [Function.is_dynamically_typed, Function.get_annotated_arguments,
      List.filter_eq_nil_iff]
  have hfull : f.is_fully_annotated = true ↔ f.get_missed_annotations = [] := by
    simp [Function.is_fully_annotated, Function.get_missed_annotations,
      List.filter_eq_nil_iff, List.all_eq_true]
  refine ⟨args_count_partition f, ?_, ?_, hdyn, hfull, ?_⟩
  · rw [Function.get_annotated_arguments]
    exact List.filter_sublist f.args
  · rw [Function.get_missed_annotations]
    exact List.filter_sublist f.args
  · rintro ⟨hf, hd⟩
    have h1 : f.get_annotated_arguments = [] := hdyn.mp hd
    have h2 : f.get_missed_annotations = [] := hfull.mp hf
    have h3 := args_length_partition f
    rw [h1, h2] at h3
    have h4 : f.args = [] := by
      simpa using h3.symm
    exact h h4

/-- C10 witness: the concrete mixed-style function, which has annotated and
missed positions, is neither fully annotated nor dynamically typed. -/
theorem C10_args_partition_witness :
    ¬(mixedFn.is_fully_annotated = true ∧ mixedFn.is_dynamically_typed = true) :=
  (C10_args_partition mixedFn (by decide)).2.2.2.2.2

end Flake8Annot
